import Mathlib

/-!
Verification of the password-reset subsystem of the `accounts` Django app
(`accounts/views.py`, `accounts/serializers.py`).

The repository's controllers are shallowly embedded as pure Lean functions.
Python byte strings are `List Nat` (each element a byte value), decoded text is
a `List Nat` of Unicode code points, HTTP request strings are `List Char`.
Unhandled Python exceptions are an explicit `HttpResult.crash` outcome.
-/

/-- Kinds of Python exceptions that can escape or be caught in the embedded
controllers. `valueError` covers `ValueError` (which
`django.utils.http.urlsafe_base64_decode` raises on a `binascii.Error`, and
which `int()` coercion of a non-numeric id raises inside the ORM lookup);
`unicodeDecodeError` is `DjangoUnicodeDecodeError` raised by `smart_str` on
invalid UTF-8; `doesNotExist` is `User.DoesNotExist`; `nameError` is a
reference to an undefined name; `assertionError` is a failed `assert`. -/
inductive PyErr where
  | valueError
  | unicodeDecodeError
  | doesNotExist
  | nameError
  | assertionError
deriving DecidableEq

/-- Stored password hash of a user. Modelled from the spec: the framework's
salted hash (`AbstractBaseUser.set_password` / `make_password`) is idealised as
an injective function of the raw password, and `set_password(None)` stores an
unusable hash that no candidate password verifies against. -/
inductive PasswordHash where
  | hashed (raw : String)
  | unusable
deriving DecidableEq

/-- User record of the identity store (`accounts.models.User`): id, unique
email, display name and password hash. Profile fields not read by the
password-reset flow are omitted. -/
structure User where
  id : Nat
  email : String
  name : String
  passwordHash : PasswordHash
deriving DecidableEq

/-- JSON body of a DRF `Response` as produced by the embedded views:
a success message, an error message, or serializer field errors. -/
inductive RespBody where
  | success (msg : String)
  | error (msg : String)
  | fieldErrors
deriving DecidableEq

/-- Outcome of one embedded request handler: a DRF `Response(status, body)`,
a `render(request, template, context)` (HTTP 200, with the error message the
context carries, if any), or an unhandled Python exception escaping the view. -/
inductive HttpResult where
  | response (status : Nat) (body : RespBody)
  | render (template : String) (errorMsg : Option String)
  | crash (e : PyErr)
deriving DecidableEq

-- Decidable equality for `Except`, used to evaluate embedded pipelines on
-- concrete inputs.
deriving instance DecidableEq for Except

/-! ### Token codec: URL-safe base64 over the decimal string form of the id

Embeds `django.utils.http.urlsafe_base64_encode` / `urlsafe_base64_decode` as
used by `serializers.py` (encode) and both confirm endpoints in `views.py`
(decode). Encoding drops the `=` padding; decoding models CPython's lenient
`binascii.a2b_base64`: characters outside the alphabet up to the first `=` are
the data, and a data-character count congruent to 1 mod 4 is an invalid-padding
`binascii.Error`, surfaced by Django as `ValueError`. -/

/-- The 64-character URL-safe base64 alphabet. -/
def b64Alphabet : List Char :=
  ['A','B','C','D','E','F','G','H','I','J','K','L','M',
   'N','O','P','Q','R','S','T','U','V','W','X','Y','Z',
   'a','b','c','d','e','f','g','h','i','j','k','l','m',
   'n','o','p','q','r','s','t','u','v','w','x','y','z',
   '0','1','2','3','4','5','6','7','8','9','-','_']

/-- Character for a 6-bit value. -/
def b64char (n : Nat) : Char := b64Alphabet.getD n 'A'

/-- Six-bit value of an alphabet character, `none` for a non-alphabet
character (which CPython's lenient decoder discards). -/
def b64value? (c : Char) : Option Nat := b64Alphabet.findIdx? (· == c)

/-- Bytes to 6-bit groups, most significant bits first, no padding. -/
def bytesToSextets : List Nat → List Nat
  | [] => []
  | [b1] => [b1 / 4, b1 % 4 * 16]
  | [b1, b2] => [b1 / 4, b1 % 4 * 16 + b2 / 16, b2 % 16 * 4]
  | b1 :: b2 :: b3 :: rest =>
      b1 / 4 :: (b1 % 4 * 16 + b2 / 16) :: (b2 % 16 * 4 + b3 / 64) :: b3 % 64 ::
        bytesToSextets rest

/-- Six-bit groups back to bytes. A trailing group of one data character is
the `binascii.Error` invalid-padding case (Django wraps it in `ValueError`);
like CPython, trailing low bits of a final partial group are ignored. -/
def sextetsToBytes : List Nat → Except PyErr (List Nat)
  | [] => .ok []
  | [_] => .error .valueError
  | [s1, s2] => .ok [s1 * 4 + s2 / 16]
  | [s1, s2, s3] => .ok [s1 * 4 + s2 / 16, s2 % 16 * 16 + s3 / 4]
  | s1 :: s2 :: s3 :: s4 :: rest =>
      (sextetsToBytes rest).map
        ([s1 * 4 + s2 / 16, s2 % 16 * 16 + s3 / 4, s3 % 4 * 64 + s4] ++ ·)

/-- Embeds `django.utils.http.urlsafe_base64_decode` applied to a request
string: the alphabet characters before the first `=` are the data; a data
length of 1 mod 4 raises (as `ValueError`). -/
def urlsafeB64Decode (cs : List Char) : Except PyErr (List Nat) :=
  sextetsToBytes ((cs.takeWhile (fun c => c != '=')).filterMap b64value?)

/-! ### UTF-8 decoding (`smart_str`)

Embeds Python's strict UTF-8 decoder as wrapped by `django.utils.encoding
.smart_str`, whose failure is `DjangoUnicodeDecodeError`. Input bytes, output
code points. The recursion carries fuel; `utf8Decode` supplies enough. -/

/-- Continuation byte test (high bits 10). -/
def isCont (b : Nat) : Bool := 128 ≤ b && b < 192

/-- Fueled strict UTF-8 decoder: rejects continuation-byte starts, overlong
forms, surrogates, values above U+10FFFF and truncated sequences. -/
def utf8DecodeAux : Nat → List Nat → Except PyErr (List Nat)
  | _, [] => .ok []
  | 0, _ :: _ => .error .unicodeDecodeError
  | fuel + 1, b :: bs =>
    if b < 128 then (utf8DecodeAux fuel bs).map (b :: ·)
    else if b < 194 then .error .unicodeDecodeError
    else if b < 224 then
      match bs with
      | b2 :: bs2 =>
        if isCont b2 then
          (utf8DecodeAux fuel bs2).map (((b - 192) * 64 + (b2 - 128)) :: ·)
        else .error .unicodeDecodeError
      | [] => .error .unicodeDecodeError
    else if b < 240 then
      match bs with
      | b2 :: b3 :: bs3 =>
        if isCont b2 && isCont b3 && !(b == 224 && b2 < 160) && !(b == 237 && 160 ≤ b2) then
          (utf8DecodeAux fuel bs3).map
            ((((b - 224) * 64 + (b2 - 128)) * 64 + (b3 - 128)) :: ·)
        else .error .unicodeDecodeError
      | _ => .error .unicodeDecodeError
    else if b < 245 then
      match bs with
      | b2 :: b3 :: b4 :: bs4 =>
        if isCont b2 && isCont b3 && isCont b4
            && !(b == 240 && b2 < 144) && !(b == 244 && 144 ≤ b2) then
          (utf8DecodeAux fuel bs4).map
            (((((b - 240) * 64 + (b2 - 128)) * 64 + (b3 - 128)) * 64 + (b4 - 128)) :: ·)
        else .error .unicodeDecodeError
      | _ => .error .unicodeDecodeError
    else .error .unicodeDecodeError

/-- Decodes a UTF-8 byte string to its code points, embedding `smart_str`. -/
def utf8Decode (bs : List Nat) : Except PyErr (List Nat) :=
  utf8DecodeAux bs.length bs

/-! ### Decimal string form of a user id

Embeds `str(user.id)` / `smart_bytes(user.id)` on the encode side and the
ORM's `int()` coercion of the decoded string in `get(id=...)` on the decode
side. -/

/-- Fueled most-significant-first decimal digits of a natural number. -/
def natDigitsAux : Nat → Nat → List Nat
  | 0, _ => []
  | fuel + 1, n => if n < 10 then [n] else natDigitsAux fuel (n / 10) ++ [n % 10]

/-- Decimal digits of a natural number, as `str` renders it. -/
def natDigits (n : Nat) : List Nat := natDigitsAux (n + 1) n

/-- Value of a most-significant-first digit list. -/
def digitsToNat (l : List Nat) : Nat := l.foldl (fun a d => a * 10 + d) 0

/-- UTF-8 bytes of `str(n)`: ASCII digit characters. -/
def pyStrBytes (n : Nat) : List Nat := (natDigits n).map (fun d => 48 + d)

/-- Embeds `int()` coercion of a decoded id string (restricted to the plain
digit-string fragment the flow produces): `some` on a nonempty all-digit
string, `none` (a `ValueError` at the call site) otherwise. -/
def pyInt? (cps : List Nat) : Option Nat :=
  if cps.isEmpty then none
  else if cps.all (fun c => 48 ≤ c && c ≤ 57) then
    some (digitsToNat (cps.map (fun c => c - 48)))
  else none

/-- Transport encoding of a user id:
`urlsafe_base64_encode(smart_bytes(user.id))` (`serializers.py`, line 42). -/
def encodeUid (id : Nat) : List Char := (bytesToSextets (pyStrBytes id)).map b64char

/-- The decode pipeline of both confirm endpoints:
`smart_str(urlsafe_base64_decode(uidb64))` followed by the ORM's integer
coercion in `User.objects.get(id=id)`. Errors keep their Python exception
class: base64 and non-numeric failures are `ValueError`, UTF-8 failures are
`DjangoUnicodeDecodeError`. -/
def decodeUidToId (cs : List Char) : Except PyErr Nat :=
  match urlsafeB64Decode cs with
  | .error e => .error e
  | .ok bs =>
    match utf8Decode bs with
    | .error e => .error e
    | .ok cps =>
      match pyInt? cps with
      | some n => .ok n
      | none => .error .valueError

/-! ### Identity store and password operations -/

/-- Embeds `User.objects.filter(email=email).first()`: first user with the
given email, if any. -/
def find_by_email (store : List User) (email : String) : Option User :=
  store.find? (fun u => u.email == email)

/-- Embeds `User.objects.get(id=n)` on a store whose ids are unique (the
primary-key constraint): the user with that id, if present. -/
def find_by_id (store : List User) (n : Nat) : Option User :=
  store.find? (fun u => u.id == n)

/-- Embeds `user.save()` after mutating a fetched user: the row with the same
primary key is replaced. -/
def saveUser (store : List User) (u : User) : List User :=
  store.map (fun v => if v.id == u.id then u else v)

/-- Hash stored for a raw password argument. Modelled from the spec: the
salted framework hash is idealised as injective; a missing (`None`) raw
password is stored as an unusable hash. -/
def pwHash : Option String → PasswordHash
  | some raw => .hashed raw
  | none => .unusable

/-- Embeds `user.set_password(raw)`: replaces the stored hash. -/
def set_password (u : User) (raw : Option String) : User :=
  { u with passwordHash := pwHash raw }

/-- Embeds `user.check_password(raw)`: true iff a usable hash matches the
candidate; `None` and unusable hashes never match. -/
def check_password (u : User) (raw : Option String) : Bool :=
  match raw, u.passwordHash with
  | some r, .hashed s => r == s
  | _, _ => false

/-! ### Reset token generator/validator

Modelled from the spec: Django's `PasswordResetTokenGenerator`
(`make_token` / `check_token`) is framework code not in this repository.
Per the spec, a token is a deterministic derivation from the user id, the
user's password hash, a coarse timestamp and the server secret, and
verification recomputes the derivation for the token's timestamp and compares,
then checks the expiry window. The MAC is idealised as collision-free by
letting it carry its derivation inputs. -/

/-- Derivation-input record standing in for the HMAC value. -/
def tokenMac (secret uid : Nat) (h : PasswordHash) (ts : Nat) :
    Nat × Nat × PasswordHash × Nat :=
  (secret, uid, h, ts)

/-- A parsed reset token: its timestamp component and its MAC. -/
structure ResetToken where
  ts : Nat
  mac : Nat × Nat × PasswordHash × Nat
deriving DecidableEq

/-- A token string arriving over HTTP: either one that parses as a token, or
a malformed string (which `check_token` rejects without raising). -/
inductive TokenInput where
  | tok (t : ResetToken)
  | malformed
deriving DecidableEq

/-- Modelled from the spec: `PasswordResetTokenGenerator().make_token(user)`
at coarse time `now` under server secret `secret`. -/
def make_token (secret now : Nat) (u : User) : ResetToken :=
  ⟨now, tokenMac secret u.id u.passwordHash now⟩

/-- Modelled from the spec: `PasswordResetTokenGenerator().check_token(user,
token)` at time `now` with expiry window `window`: recompute the MAC for the
token's timestamp against the current user state, compare, and check the age
against the window. Never raises; malformed tokens are simply invalid. -/
def check_token (secret window now : Nat) (u : User) : TokenInput → Bool
  | .malformed => false
  | .tok t =>
      decide (t.mac = tokenMac secret u.id u.passwordHash t.ts)
        && decide (now - t.ts ≤ window)

/-! ### Embedded request handlers (`accounts/views.py`) -/

/-- Embeds `RequestPasswordResetEmail.post` (`views.py`, lines 82-105)
together with `ResetPasswordEmailRequestSerializer.validate`
(`serializers.py`, lines 40-46). `emailValid` is the `EmailField` check.
On a malformed email the view returns the serializer errors with 400. On a
well-formed email, `is_valid()` runs `validate`, which looks the email up:
if no user matches, `validate` falls through and returns `None`, and DRF's
`run_validation` assertion that `validate()` returned the validated data
fails, so `is_valid()` raises `AssertionError`. If a user matches, the view
reaches `urlsafe_base64_encode(...)` (`views.py`, line 89), a name the module
never imports (only `urlsafe_base64_decode` is imported), raising
`NameError`. Neither branch reaches the unconditional success `Response`. -/
def requestPasswordReset (store : List User) (emailValid : Bool) (email : String) :
    HttpResult :=
  if emailValid then
    match find_by_email store email with
    | some _ => .crash .nameError
    | none => .crash .assertionError
  else .response 400 .fieldErrors

/-- Embeds `PasswordTokenCheckAPI.get` (`views.py`, lines 108-126). The `try`
block decodes the id, looks the user up and checks the token; the only
`except` clause catches `DjangoUnicodeDecodeError` and maps it to the generic
401; `ValueError` from base64 or integer coercion and `User.DoesNotExist`
from the lookup propagate out of the view unhandled. A valid token renders
the confirm form template. -/
def passwordTokenCheck (store : List User) (secret window now : Nat)
    (uidb64 : List Char) (token : TokenInput) : HttpResult :=
  match decodeUidToId uidb64 with
  | .error .unicodeDecodeError =>
      .response 401 (.error "Token is not valid, please request a new one")
  | .error e => .crash e
  | .ok n =>
    match find_by_id store n with
    | none => .crash .doesNotExist
    | some u =>
      if check_token secret window now u token then
        .render "accounts/password_reset_confirm" none
      else .response 401 (.error "Token is not valid, please request a new one")

/-- Embeds `SetNewPasswordAPIView.post` (`views.py`, lines 129-156), returning
the handler outcome and the identity store after the request. The `try` block
decodes the id, fetches the user, checks the token, and on success sets the
new password (with no validation of its presence or content) and saves.
`DjangoUnicodeDecodeError` and a failed token check both re-render the confirm
template with the generic invalid-token message; `User.DoesNotExist` is caught
and mapped to a 404; `ValueError` from base64 or integer coercion propagates
unhandled. -/
def setNewPassword (store : List User) (secret window now : Nat)
    (uidb64 : List Char) (token : TokenInput) (newPassword : Option String) :
    HttpResult × List User :=
  match decodeUidToId uidb64 with
  | .error .unicodeDecodeError =>
      (.render "accounts/password_reset_confirm"
        (some "Token is not valid, please request a new one"), store)
  | .error e => (.crash e, store)
  | .ok n =>
    match find_by_id store n with
    | none => (.response 404 (.error "User not found"), store)
    | some u =>
      if check_token secret window now u token then
        (.response 200 (.success "Password reset successfully"),
         saveUser store (set_password u newPassword))
      else
        (.render "accounts/password_reset_confirm"
          (some "Token is not valid, please request a new one"), store)

/-- Embeds `ChangePasswordView.put` (`views.py`, lines 27-43) for the
authenticated user `u`, returning the outcome, the user after the request and
whether `save()` was called. A wrong (or missing) current password returns 400
before any mutation; otherwise the new password is set and saved. -/
def changePasswordPut (u : User) (current newPassword : Option String) :
    HttpResult × User × Bool :=
  if check_password u current then
    (.response 200 (.success "Password updated successfully"),
     set_password u newPassword, true)
  else
    (.response 400 (.error "Current password is incorrect"), u, false)

/-! ### Codec lemmas -/

theorem b64value_b64char : ∀ v : Fin 64, b64value? (b64char v.val) = some v.val := by
  decide

theorem b64char_ne_pad : ∀ v : Fin 64, (b64char v.val != '=') = true := by
  decide

/-- Alphabet characters survive the data filter of the lenient decoder. -/
theorem filterMap_map_b64char :
    ∀ l : List Nat, (∀ x ∈ l, x < 64) →
      ((l.map b64char).takeWhile (fun c => c != '=')).filterMap b64value? = l := by
  intro l
  induction l with
  | nil => intro _; rfl
  | cons a t ih =>
    intro h
    have ha : a < 64 := h a (by simp)
    have h1 := b64char_ne_pad ⟨a, ha⟩
    have h2 := b64value_b64char ⟨a, ha⟩
    simp only [List.map_cons, List.takeWhile_cons, h1, if_true, List.filterMap_cons, h2]
    rw [ih (fun x hx => h x (by simp [hx]))]

/-- Sextets produced from bytes are 6-bit values. -/
theorem bytesToSextets_lt64 :
    ∀ bs : List Nat, (∀ b ∈ bs, b < 256) → ∀ s ∈ bytesToSextets bs, s < 64 := by
  intro bs
  induction bs using bytesToSextets.induct with
  | case1 => intro _; simp [bytesToSextets]
  | case2 b1 =>
    intro h
    have := h b1 (by simp)
    simp [bytesToSextets]; omega
  | case3 b1 b2 =>
    intro h
    have h1 := h b1 (by simp)
    have h2 := h b2 (by simp)
    simp [bytesToSextets]; omega
  | case4 b1 b2 b3 rest ih =>
    intro h
    have h1 := h b1 (by simp)
    have h2 := h b2 (by simp)
    have h3 := h b3 (by simp)
    have ih2 := ih (fun x hx => h x (by simp [hx]))
    simp only [bytesToSextets, List.mem_cons]
    intro s hs
    rcases hs with rfl | rfl | rfl | rfl | hs
    · omega
    · omega
    · omega
    · omega
    · exact ih2 s hs

/-- Decoding the sextet stream of a byte string recovers the bytes. -/
theorem sextetsToBytes_bytesToSextets :
    ∀ bs : List Nat, (∀ b ∈ bs, b < 256) →
      sextetsToBytes (bytesToSextets bs) = .ok bs := by
  intro bs
  induction bs using bytesToSextets.induct with
  | case1 => intro _; rfl
  | case2 b1 =>
    intro h
    have h1 := h b1 (by simp)
    simp [bytesToSextets, sextetsToBytes]
    omega
  | case3 b1 b2 =>
    intro h
    have h1 := h b1 (by simp)
    have h2 := h b2 (by simp)
    simp [bytesToSextets, sextetsToBytes]
    constructor <;> omega
  | case4 b1 b2 b3 rest ih =>
    intro h
    have h1 := h b1 (by simp)
    have h2 := h b2 (by simp)
    have h3 := h b3 (by simp)
    have ih2 := ih (fun x hx => h x (by simp [hx]))
    simp only [bytesToSextets, sextetsToBytes, ih2, Except.map]
    simp only [List.append_eq, List.cons_append, List.nil_append, Except.ok.injEq,
      List.cons.injEq]
    and_intros <;> first | omega | trivial

/-- A run of ASCII bytes decodes to itself. -/
theorem utf8DecodeAux_ascii :
    ∀ (fuel : Nat) (bs : List Nat), bs.length ≤ fuel → (∀ b ∈ bs, b < 128) →
      utf8DecodeAux fuel bs = .ok bs := by
  intro fuel
  induction fuel with
  | zero =>
    intro bs hlen _
    cases bs with
    | nil => rfl
    | cons b t => simp at hlen
  | succ f ih =>
    intro bs hlen hb
    cases bs with
    | nil => rfl
    | cons b t =>
      have hb0 : b < 128 := hb b (by simp)
      have ht := ih t (by simp at hlen; omega) (fun x hx => hb x (by simp [hx]))
      simp [utf8DecodeAux, hb0, ht, Except.map]

/-! ### Decimal-string lemmas -/

theorem digitsToNat_append (l : List Nat) (d : Nat) :
    digitsToNat (l ++ [d]) = digitsToNat l * 10 + d := by
  simp [digitsToNat, List.foldl_append]

theorem digitsToNat_natDigitsAux :
    ∀ (fuel n : Nat), n < fuel → digitsToNat (natDigitsAux fuel n) = n := by
  intro fuel
  induction fuel with
  | zero => intro n hn; omega
  | succ f ih =>
    intro n hn
    by_cases h10 : n < 10
    · simp [natDigitsAux, h10, digitsToNat]
    · have hq : n / 10 < f := by omega
      simp only [natDigitsAux, h10, if_false, digitsToNat_append, ih (n / 10) hq]
      omega

theorem digitsToNat_natDigits (n : Nat) : digitsToNat (natDigits n) = n :=
  digitsToNat_natDigitsAux (n + 1) n (by omega)

theorem natDigitsAux_lt10 :
    ∀ (fuel n : Nat), ∀ d ∈ natDigitsAux fuel n, d < 10 := by
  intro fuel
  induction fuel with
  | zero => intro n d hd; simp [natDigitsAux] at hd
  | succ f ih =>
    intro n d hd
    by_cases h10 : n < 10
    · simp [natDigitsAux, h10] at hd; omega
    · simp only [natDigitsAux, h10, if_false, List.mem_append, List.mem_singleton] at hd
      rcases hd with hd | rfl
      · exact ih (n / 10) d hd
      · omega

theorem natDigits_lt10 (n : Nat) : ∀ d ∈ natDigits n, d < 10 :=
  natDigitsAux_lt10 (n + 1) n

theorem natDigits_ne_nil (n : Nat) : natDigits n ≠ [] := by
  unfold natDigits natDigitsAux
  by_cases h10 : n < 10 <;> simp [h10]

theorem pyStrBytes_range (n : Nat) : ∀ b ∈ pyStrBytes n, 48 ≤ b ∧ b ≤ 57 := by
  intro b hb
  simp only [pyStrBytes, List.mem_map] at hb
  obtain ⟨d, hd, rfl⟩ := hb
  have := natDigits_lt10 n d hd
  omega

theorem pyInt?_pyStrBytes (n : Nat) : pyInt? (pyStrBytes n) = some n := by
  have hne : pyStrBytes n ≠ [] := by
    simp [pyStrBytes, natDigits_ne_nil n]
  have hall : (pyStrBytes n).all (fun c => 48 ≤ c && c ≤ 57) = true := by
    simp only [List.all_eq_true]
    intro b hb
    have := pyStrBytes_range n b hb
    simp; omega
  simp only [pyInt?, List.isEmpty_eq_true, hne, if_false, hall, if_true,
    Option.some.injEq]
  have hmap : (pyStrBytes n).map (fun c => c - 48) = natDigits n := by
    simp [pyStrBytes, List.map_map, Function.comp_def, Nat.add_sub_cancel_left]
  rw [hmap, digitsToNat_natDigits]

/-! ### Transport-codec roundtrip -/

/-- C2: for every valid user id, decoding the URL-safe base64 transport
encoding of the id's string form through the confirm-endpoint pipeline yields
the original id: decode(encode(id)) == id. -/
theorem c2_decode_encode_roundtrip (id : Nat) : decodeUidToId (encodeUid id) = .ok id := by
  have hbytes : ∀ b ∈ pyStrBytes id, b < 256 := by
    intro b hb; have := pyStrBytes_range id b hb; omega
  have hascii : ∀ b ∈ pyStrBytes id, b < 128 := by
    intro b hb; have := pyStrBytes_range id b hb; omega
  have h64 := bytesToSextets_lt64 (pyStrBytes id) hbytes
  have hdec : urlsafeB64Decode (encodeUid id) = .ok (pyStrBytes id) := by
    unfold urlsafeB64Decode encodeUid
    rw [filterMap_map_b64char _ h64, sextetsToBytes_bytesToSextets _ hbytes]
  have hutf : utf8Decode (pyStrBytes id) = .ok (pyStrBytes id) :=
    utf8DecodeAux_ascii _ _ (Nat.le_refl _) hascii
  simp [decodeUidToId, hdec, hutf, pyInt?_pyStrBytes]

/-! ### Claim theorems -/

/-- C1: the claim that the reset-request endpoint answers a well-formed email
with the same 200 success response whether or not a user with that email
exists fails on the code. With a matching user the handler evaluates
`urlsafe_base64_encode`, a name `views.py` never imports, and raises
`NameError`; without a matching user the serializer's `validate` returns
`None` and the framework's validated-data assertion fails. The two outcomes
are crashes, not the success response, and they even differ from each other,
so the lookup outcome remains observable. -/
theorem c1_reset_request_crashes :
    requestPasswordReset [⟨1, "user@example.com", "Alice", .hashed "pw1"⟩] true
        "user@example.com" = .crash .nameError
    ∧ requestPasswordReset [] true "user@example.com" = .crash .assertionError
    ∧ requestPasswordReset [⟨1, "user@example.com", "Alice", .hashed "pw1"⟩] true
        "user@example.com"
      ≠ requestPasswordReset [] true "user@example.com" := by
  decide

/-- C3: the claim that every malformed encoded id is caught and mapped to the
generic 401 fails on the code. The string consisting of the single character
A is not decodable base64 (one data character), so Django's decoder raises
`ValueError`, which the `except DjangoUnicodeDecodeError` clause of either
confirm endpoint does not catch: both requests end in an unhandled fault. -/
theorem c3_malformed_uid_unhandled :
    passwordTokenCheck [] 0 0 0 ['A'] .malformed = .crash .valueError
    ∧ (setNewPassword [] 0 0 0 ['A'] .malformed (some "np")).1 = .crash .valueError := by
  decide

/-- C4: a token issued for a user verifies successfully when checked
immediately for that same unchanged user, for every user, secret, window and
issuance time. -/
theorem c4_verify_issue (secret window now : Nat) (u : User) :
    check_token secret window now u (.tok (make_token secret now u)) = true := by
  simp [check_token, make_token, tokenMac]

/-- C5: once the user's password hash changes through `set_password` and
`save`, a token issued before the change no longer verifies, at any later
check time: every password mutation invalidates all previously issued
tokens. -/
theorem c5_password_change_invalidates (secret window now now2 : Nat) (u : User)
    (raw : Option String) (h : pwHash raw ≠ u.passwordHash) :
    check_token secret window now2 (set_password u raw)
      (.tok (make_token secret now u)) = false := by
  simp only [check_token, make_token, set_password, tokenMac,
    Bool.and_eq_false_iff, decide_eq_false_iff_not]
  left
  simp only [Prod.mk.injEq, not_and]
  intro _ _ hh
  exact absurd hh.symm h

/-- Witness for C5 at a concrete user whose hash changes from old to new. -/
theorem c5_witness :
    pwHash (some "new") ≠ PasswordHash.hashed "old"
    ∧ check_token 0 0 0 (set_password ⟨1, "a@b.com", "A", .hashed "old"⟩ (some "new"))
        (.tok (make_token 0 0 ⟨1, "a@b.com", "A", .hashed "old"⟩)) = false :=
  ⟨by decide, c5_password_change_invalidates 0 0 0 0 _ (some "new") (by decide)⟩

/-- C6: the claim that a GET on the password-reset-confirm endpoint whose
encoded id decodes to an id absent from the store is answered with a generic
invalid-token error fails on the code: `User.DoesNotExist` is not among the
caught exceptions of that handler, so the request ends in an unhandled
fault. -/
theorem c6_missing_user_unhandled :
    passwordTokenCheck [⟨1, "user@example.com", "Alice", .hashed "pw1"⟩] 0 0 0
      (encodeUid 99) .malformed = .crash .doesNotExist := by
  decide

/-- C7 counterexample: with a valid encoded id for an existing user and a
token that fails verification, the confirm-with-new-password endpoint does
not return the 401 invalid-token response the claim requires; it re-renders
the confirm template (an HTTP 200) with the generic message. -/
theorem c7_counterexample :
    (setNewPassword [⟨7, "u@x.com", "Nia", .hashed "old"⟩] 0 0 0 (encodeUid 7)
        .malformed (some "np")).1
      = .render "accounts/password_reset_confirm"
          (some "Token is not valid, please request a new one")
    ∧ (setNewPassword [⟨7, "u@x.com", "Nia", .hashed "old"⟩] 0 0 0 (encodeUid 7)
        .malformed (some "np")).1
      ≠ .response 401 (.error "Token is not valid, please request a new one") := by
  decide

/-- C7 as amended: the confirm-with-new-password endpoint returns 200 success
with the password updated when decode, lookup and token verification all
succeed; re-renders the confirm template with the generic invalid-token
message (HTTP 200, not 401) when the token fails verification or the id fails
UTF-8 decoding; returns 404 user-not-found when the decoded id matches no
user; and lets `ValueError` escape unhandled when the id is not decodable
base64. -/
theorem c7_amended (store : List User) (secret window now : Nat)
    (uidb64 : List Char) (token : TokenInput) (npw : Option String)
    (n : Nat) (u : User) :
    (decodeUidToId uidb64 = .ok n → find_by_id store n = some u →
        check_token secret window now u token = true →
        setNewPassword store secret window now uidb64 token npw
          = (.response 200 (.success "Password reset successfully"),
             saveUser store (set_password u npw)))
    ∧ (decodeUidToId uidb64 = .ok n → find_by_id store n = some u →
        check_token secret window now u token = false →
        setNewPassword store secret window now uidb64 token npw
          = (.render "accounts/password_reset_confirm"
              (some "Token is not valid, please request a new one"), store))
    ∧ (decodeUidToId uidb64 = .ok n → find_by_id store n = none →
        setNewPassword store secret window now uidb64 token npw
          = (.response 404 (.error "User not found"), store))
    ∧ (decodeUidToId uidb64 = .error .valueError →
        setNewPassword store secret window now uidb64 token npw
          = (.crash .valueError, store))
    ∧ (decodeUidToId uidb64 = .error .unicodeDecodeError →
        setNewPassword store secret window now uidb64 token npw
          = (.render "accounts/password_reset_confirm"
              (some "Token is not valid, please request a new one"), store)) := by
  refine ⟨?_, ?_, ?_, ?_, ?_⟩
  · intro h1 h2 h3; simp [setNewPassword, h1, h2, h3]
  · intro h1 h2 h3; simp [setNewPassword, h1, h2, h3]
  · intro h1 h2; simp [setNewPassword, h1, h2]
  · intro h1; simp [setNewPassword, h1]
  · intro h1; simp [setNewPassword, h1]

/-- Witness for C7 as amended: each branch of the case analysis realised at a
concrete request. -/
theorem c7_amended_witness :
    setNewPassword [⟨7, "u@x.com", "Nia", .hashed "old"⟩] 0 0 0 (encodeUid 7)
        (.tok (make_token 0 0 ⟨7, "u@x.com", "Nia", .hashed "old"⟩)) (some "np")
      = (.response 200 (.success "Password reset successfully"),
         saveUser [⟨7, "u@x.com", "Nia", .hashed "old"⟩]
           (set_password ⟨7, "u@x.com", "Nia", .hashed "old"⟩ (some "np")))
    ∧ setNewPassword [⟨7, "u@x.com", "Nia", .hashed "old"⟩] 0 0 0 (encodeUid 7)
        .malformed (some "np")
      = (.render "accounts/password_reset_confirm"
          (some "Token is not valid, please request a new one"),
         [⟨7, "u@x.com", "Nia", .hashed "old"⟩])
    ∧ setNewPassword [] 0 0 0 (encodeUid 7) .malformed (some "np")
      = (.response 404 (.error "User not found"), [])
    ∧ setNewPassword [] 0 0 0 ['A'] .malformed (some "np") = (.crash .valueError, [])
    ∧ setNewPassword [] 0 0 0 ['_', 'w'] .malformed (some "np")
      = (.render "accounts/password_reset_confirm"
          (some "Token is not valid, please request a new one"), []) :=
  ⟨(c7_amended _ 0 0 0 _ _ _ 7 ⟨7, "u@x.com", "Nia", .hashed "old"⟩).1
      (by decide) (by decide) (by decide),
   (c7_amended _ 0 0 0 _ _ _ 7 ⟨7, "u@x.com", "Nia", .hashed "old"⟩).2.1
      (by decide) (by decide) (by decide),
   (c7_amended _ 0 0 0 _ _ _ 7 ⟨7, "u@x.com", "Nia", .hashed "old"⟩).2.2.1
      (by decide) (by decide),
   (c7_amended _ 0 0 0 _ _ _ 0 ⟨7, "u@x.com", "Nia", .hashed "old"⟩).2.2.2.1
      (by decide),
   (c7_amended _ 0 0 0 _ _ _ 0 ⟨7, "u@x.com", "Nia", .hashed "old"⟩).2.2.2.2
      (by decide)⟩

/-- C8: on an authenticated change-password request, a matching current
password yields 200 and the stored hash becomes the hash of the new password;
a non-matching current password yields 400 wrong-current-password. -/
theorem c8_change_password (u : User) (cur npw : Option String) :
    (check_password u cur = true →
        changePasswordPut u cur npw
          = (.response 200 (.success "Password updated successfully"),
             set_password u npw, true)
        ∧ (changePasswordPut u cur npw).2.1.passwordHash = pwHash npw)
    ∧ (check_password u cur = false →
        (changePasswordPut u cur npw).1
          = .response 400 (.error "Current password is incorrect")) := by
  constructor
  · intro h; simp [changePasswordPut, h, set_password]
  · intro h; simp [changePasswordPut, h]

/-- Witness for C8: both branches at a concrete user. -/
theorem c8_change_password_witness :
    (changePasswordPut ⟨1, "a@b.com", "A", .hashed "cur"⟩ (some "cur") (some "np")
        = (.response 200 (.success "Password updated successfully"),
           set_password ⟨1, "a@b.com", "A", .hashed "cur"⟩ (some "np"), true)
      ∧ (changePasswordPut ⟨1, "a@b.com", "A", .hashed "cur"⟩ (some "cur")
          (some "np")).2.1.passwordHash = pwHash (some "np"))
    ∧ (changePasswordPut ⟨1, "a@b.com", "A", .hashed "cur"⟩ (some "wrong")
        (some "np")).1 = .response 400 (.error "Current password is incorrect") :=
  ⟨(c8_change_password ⟨1, "a@b.com", "A", .hashed "cur"⟩ (some "cur") (some "np")).1
      (by decide),
   (c8_change_password ⟨1, "a@b.com", "A", .hashed "cur"⟩ (some "wrong") (some "np")).2
      (by decide)⟩

/-- C9: when the supplied current password does not match, the change-password
request leaves the user record exactly as it was and performs no save. -/
theorem c9_wrong_password_no_write (u : User) (cur npw : Option String)
    (h : check_password u cur = false) :
    changePasswordPut u cur npw
      = (.response 400 (.error "Current password is incorrect"), u, false) := by
  simp [changePasswordPut, h]

/-- Witness for C9 at a concrete user and wrong current password. -/
theorem c9_wrong_password_no_write_witness :
    check_password ⟨1, "a@b.com", "A", .hashed "cur"⟩ (some "wrong") = false
    ∧ changePasswordPut ⟨1, "a@b.com", "A", .hashed "cur"⟩ (some "wrong") (some "np")
      = (.response 400 (.error "Current password is incorrect"),
         ⟨1, "a@b.com", "A", .hashed "cur"⟩, false) :=
  ⟨by decide,
   c9_wrong_password_no_write ⟨1, "a@b.com", "A", .hashed "cur"⟩ (some "wrong")
     (some "np") (by decide)⟩

/-- C10: a confirm-with-new-password request that passes decode, lookup and
token verification but carries no new_password still returns 200 success and
overwrites the user's stored password with the missing (None) value, no
presence or strength validation intervening. -/
theorem c10_missing_new_password (store : List User) (secret window now : Nat)
    (uidb64 : List Char) (token : TokenInput) (n : Nat) (u : User)
    (hdec : decodeUidToId uidb64 = .ok n) (hfind : find_by_id store n = some u)
    (htok : check_token secret window now u token = true) :
    setNewPassword store secret window now uidb64 token none
      = (.response 200 (.success "Password reset successfully"),
         saveUser store { u with passwordHash := PasswordHash.unusable }) := by
  simp [setNewPassword, hdec, hfind, htok, set_password, pwHash]

/-- Witness for C10 at a concrete user and omitted new_password. -/
theorem c10_missing_new_password_witness :
    setNewPassword [⟨7, "u@x.com", "Nia", .hashed "old"⟩] 0 0 0 (encodeUid 7)
        (.tok (make_token 0 0 ⟨7, "u@x.com", "Nia", .hashed "old"⟩)) none
      = (.response 200 (.success "Password reset successfully"),
         saveUser [⟨7, "u@x.com", "Nia", .hashed "old"⟩]
           { (⟨7, "u@x.com", "Nia", .hashed "old"⟩ : User) with
               passwordHash := PasswordHash.unusable }) :=
  c10_missing_new_password _ 0 0 0 _ _ 7 ⟨7, "u@x.com", "Nia", .hashed "old"⟩
    (by decide) (by decide) (by decide)
